import Mathlib

/-!
Shallow embedding of the ClipFlow frontend orchestration logic
(src/frontend/src/App.tsx).

The React component App holds four pieces of state: `clips`,
`isUploading`, `isProcessing` and `progress`.  Its event handlers
(`websocket.onmessage`, `loadClips`, `handleFileUpload`,
`handleProcess`, `handleDeleteClip`) are embedded here as pure
functions from the current state and the relevant network responses to
the next state together with an explicit trace of the effects they
perform (requests issued, alerts shown, refreshes triggered).
Numeric JSON fields are modelled as integers; JS `${error}` for a
thrown `Error` stringifies as `Error: ` followed by its message, which
the alert strings below reproduce.
-/

/-- Mirrors the `VideoClip` interface of App.tsx. -/
structure VideoClip where
  id : String
  filename : String
  duration : Option Int := none
  width : Option Int := none
  height : Option Int := none
  fps : Option Int := none
  has_audio : Option Bool := none
  file_size : Option Int := none
  thumbnail : Option String := none
deriving Repr, DecidableEq

/-- Mirrors the `ProcessingProgress` interface of App.tsx. -/
structure ProcessingProgress where
  stage : String
  progress : Int
  message : Option String := none
  output_filename : Option String := none
deriving Repr, DecidableEq

/-- The component state of `App`: the four `useState` hooks
(`clips`, `isUploading`, `isProcessing`, `progress`); the `ws` handle
carries no orchestration data and is omitted. -/
structure AppState where
  clips : List VideoClip
  isUploading : Bool
  isProcessing : Bool
  progress : Option ProcessingProgress
deriving Repr, DecidableEq

/-- Initial hook values: `[]`, `false`, `false`, `null`. -/
def initialState : AppState :=
  { clips := [], isUploading := false, isProcessing := false, progress := none }

/-- `websocket.onmessage` (App.tsx lines 34 to 41): unconditionally
`setProgress(data)`; when `data.stage` is the string complete or the
string error, additionally `setIsProcessing(false)`. -/
def onMessage (s : AppState) (data : ProcessingProgress) : AppState :=
  { s with
    progress := some data,
    isProcessing :=
      if data.stage = "complete" ∨ data.stage = "error" then false
      else s.isProcessing }

/-- Value shown by the progress bar: `progress.progress` when a
progress object is present. -/
def progressValue (s : AppState) : Int :=
  match s.progress with
  | some p => p.progress
  | none => 0

/-- Apply a list of inbound websocket events in receipt order. -/
def applyEvents (s : AppState) : List ProcessingProgress → AppState
  | [] => s
  | e :: es => applyEvents (onMessage s e) es

/-- The recorded progress value after each event of the receipt
sequence, in order. -/
def recordedSeq : AppState → List ProcessingProgress → List Int
  | _, [] => []
  | s, e :: es => progressValue (onMessage s e) :: recordedSeq (onMessage s e) es

/-- Outcome of the `GET /api/clips/` fetch performed by `loadClips`:
either the whole try block throws (fetch rejection or JSON parse
failure), or it yields a parsed body whose `clips` field may be
absent or null. -/
inductive ClipsFetch where
  | failure (msg : String)
  | success (clips : Option (List VideoClip))
deriving Repr, DecidableEq

/-- Result of running `loadClips`: the next state and the console
error log entries. -/
structure LoadResult where
  state : AppState
  logs : List String
deriving Repr, DecidableEq

/-- `loadClips` (App.tsx lines 55 to 63): on success
`setClips(data.clips || [])`; on any failure only
`console.error(...)`, leaving `clips` untouched. -/
def loadClips (s : AppState) (r : ClipsFetch) : LoadResult :=
  match r with
  | ClipsFetch.failure msg =>
      { state := s, logs := ["Error loading clips: " ++ msg] }
  | ClipsFetch.success cs =>
      { state := { s with clips := cs.getD [] }, logs := [] }

/-- Outcome of one per-file `POST /api/clips/upload` request. -/
inductive UploadOutcome where
  | success
  | httpError (statusText : String)
  | transportError (msg : String)
deriving Repr, DecidableEq

/-- Whether a per-file outcome is a failure. -/
def UploadOutcome.failed : UploadOutcome → Bool
  | UploadOutcome.success => false
  | UploadOutcome.httpError _ => true
  | UploadOutcome.transportError _ => true

/-- One file of the selection together with how its upload resolves. -/
structure UploadFile where
  name : String
  outcome : UploadOutcome
deriving Repr, DecidableEq

/-- String form of the caught error for a failed upload, as
interpolated by the alert template literal. -/
def uploadErrString : UploadOutcome → String
  | UploadOutcome.success => ""
  | UploadOutcome.httpError st => "Error: Upload failed: " ++ st
  | UploadOutcome.transportError m => m

/-- The alert produced for one file, if any (App.tsx line 89). -/
def uploadAlert (f : UploadFile) : Option String :=
  match f.outcome with
  | UploadOutcome.success => none
  | UploadOutcome.httpError st =>
      some ("Failed to upload " ++ f.name ++ ": Error: Upload failed: " ++ st)
  | UploadOutcome.transportError m =>
      some ("Failed to upload " ++ f.name ++ ": " ++ m)

/-- Result of running `handleFileUpload`: next state plus the trace of
effects (number of upload requests issued, number of `loadClips`
refreshes triggered, alerts shown, whether the input was cleared). -/
structure UploadRun where
  state : AppState
  uploadAttempts : Nat
  refreshCount : Nat
  alerts : List String
  inputCleared : Bool
deriving Repr, DecidableEq

/-- `handleFileUpload` (App.tsx lines 65 to 98): `event.target.files`
may be null or empty, in which case the handler returns at once; else
it sets `isUploading`, uploads each file in order inside its own
try/catch (a failure alerts and continues), then clears `isUploading`,
calls `loadClips()` once and clears the input. -/
def handleFileUpload (s : AppState) (files : Option (List UploadFile))
    (refreshResp : ClipsFetch) : UploadRun :=
  match files with
  | none =>
      { state := s, uploadAttempts := 0, refreshCount := 0,
        alerts := [], inputCleared := false }
  | some fs =>
      if fs.length = 0 then
        { state := s, uploadAttempts := 0, refreshCount := 0,
          alerts := [], inputCleared := false }
      else
        let s1 := { s with isUploading := true }
        let batchAlerts := fs.filterMap uploadAlert
        let s2 := { s1 with isUploading := false }
        let s3 := (loadClips s2 refreshResp).state
        { state := s3, uploadAttempts := fs.length, refreshCount := 1,
          alerts := batchAlerts, inputCleared := true }

/-- The body of the `POST /api/process/concatenate` request. -/
structure ConcatRequest where
  clip_ids : List String
  output_filename : String
deriving Repr, DecidableEq

/-- Outcome of the concatenate fetch. -/
inductive StartResponse where
  | accepted
  | httpError (statusText : String)
  | transportError (msg : String)
deriving Repr, DecidableEq

/-- Result of running `handleProcess`: next state, requests actually
issued to the backend, and alerts shown. -/
structure ProcessRun where
  state : AppState
  requests : List ConcatRequest
  alerts : List String
deriving Repr, DecidableEq

/-- The progress object set before the request is sent
(App.tsx line 107). -/
def startingProgress : ProcessingProgress := { stage := "starting", progress := 0 }

/-- `handleProcess` (App.tsx lines 100 to 132): rejects locally only
when `clips.length === 0` (alert, no request); otherwise sets
`isProcessing` and a starting progress object, sends the request with
all current clip ids, and on a non-ok or failed response alerts and
clears `isProcessing`, leaving `progress` untouched. -/
def handleProcess (s : AppState) (resp : StartResponse) : ProcessRun :=
  if s.clips.length = 0 then
    { state := s, requests := [],
      alerts := ["Please upload some video clips first"] }
  else
    let s1 := { s with isProcessing := true, progress := some startingProgress }
    let req : ConcatRequest :=
      { clip_ids := s.clips.map VideoClip.id,
        output_filename := "concatenated_video.mp4" }
    match resp with
    | StartResponse.accepted =>
        { state := s1, requests := [req], alerts := [] }
    | StartResponse.httpError st =>
        { state := { s1 with isProcessing := false }, requests := [req],
          alerts := ["Processing failed: Error: Processing failed: " ++ st] }
    | StartResponse.transportError m =>
        { state := { s1 with isProcessing := false }, requests := [req],
          alerts := ["Processing failed: " ++ m] }

/-- The `disabled` prop of the concatenate button (App.tsx line 284):
`isProcessing || clips.length === 0`. -/
def processButtonDisabled (s : AppState) : Bool :=
  s.isProcessing || decide (s.clips.length = 0)

/-- Outcome of the `DELETE /api/clips/{id}` fetch. -/
inductive DeleteResponse where
  | ok
  | httpError (statusText : String)
  | transportError (msg : String)
deriving Repr, DecidableEq

/-- Result of running `handleDeleteClip`: next state, ids for which a
delete request was issued, refreshes triggered and alerts shown. -/
structure DeleteRun where
  state : AppState
  deleteRequests : List String
  refreshCount : Nat
  alerts : List String
deriving Repr, DecidableEq

/-- `handleDeleteClip` (App.tsx lines 134 to 149): issues the delete;
when the response is ok it calls `loadClips()`; a non-ok response
throws before `loadClips`, so the catch alerts and no refresh runs. -/
def handleDeleteClip (s : AppState) (clipId : String) (dr : DeleteResponse)
    (rr : ClipsFetch) : DeleteRun :=
  match dr with
  | DeleteResponse.ok =>
      { state := (loadClips s rr).state, deleteRequests := [clipId],
        refreshCount := 1, alerts := [] }
  | DeleteResponse.httpError st =>
      { state := s, deleteRequests := [clipId], refreshCount := 0,
        alerts := ["Failed to delete clip: Error: Delete failed: " ++ st] }
  | DeleteResponse.transportError m =>
      { state := s, deleteRequests := [clipId], refreshCount := 0,
        alerts := ["Failed to delete clip: " ++ m] }

/-- Sample clip used in concrete scenarios. -/
def clipA : VideoClip := { id := "a", filename := "a.mp4" }

/-- Second sample clip. -/
def clipB : VideoClip := { id := "b", filename := "b.mp4" }

/-- Idle state holding exactly one clip. -/
def oneClipState : AppState := { initialState with clips := [clipA] }

/-- Idle state holding two clips. -/
def twoClipIdle : AppState := { initialState with clips := [clipA, clipB] }

/-- State of a job in flight over two clips. -/
def runningState : AppState :=
  { twoClipIdle with
    isProcessing := true,
    progress := some { stage := "processing", progress := 0 } }

/-- An intermediate progress event carrying the given percentage. -/
def evt (n : Int) : ProcessingProgress := { stage := "processing", progress := n }

/-- A terminal complete event naming the output file. -/
def completeEvt : ProcessingProgress :=
  { stage := "complete", progress := 100, output_filename := some "out.mp4" }

/-- After any event is applied, the recorded progress is exactly that
event. -/
theorem onMessage_progress (s : AppState) (e : ProcessingProgress) :
    (onMessage s e).progress = some e := rfl

/-- C1: the claim states that with fewer than 2 clips no request is
issued, but with exactly one clip `handleProcess` does send a
concatenate request and moves the job out of idle. -/
theorem C1_counterexample :
    oneClipState.clips.length < 2 ∧
    (handleProcess oneClipState StartResponse.accepted).requests =
      [{ clip_ids := ["a"], output_filename := "concatenated_video.mp4" }] ∧
    (handleProcess oneClipState StartResponse.accepted).state.isProcessing = true := by
  refine ⟨by decide, ?_, ?_⟩ <;> rfl

/-- C1 (amended): only an empty registry is rejected locally: with
zero clips, triggering concatenation issues no request, shows an
alert, and leaves the whole state (hence idle) unchanged; the local
threshold is 1 clip, not 2. -/
theorem C1_zero_clips_no_request (s : AppState) (resp : StartResponse)
    (h : s.clips.length = 0) :
    (handleProcess s resp).requests = [] ∧
    (handleProcess s resp).state = s ∧
    (handleProcess s resp).alerts = ["Please upload some video clips first"] := by
  simp [handleProcess, h]

/-- C1 witness: the empty initial state satisfies the hypothesis and
the conclusion. -/
theorem C1_zero_clips_no_request_witness :
    (handleProcess initialState StartResponse.accepted).requests = [] ∧
    (handleProcess initialState StartResponse.accepted).state = initialState ∧
    (handleProcess initialState StartResponse.accepted).alerts =
      ["Please upload some video clips first"] :=
  C1_zero_clips_no_request initialState StartResponse.accepted rfl

/-- C2: the claim states the out-of-order 25 is discarded, yielding
recorded sequence [10, 40, 40, 70]; in fact `onmessage` applies every
event unconditionally, so the recorded sequence is [10, 40, 25, 70]
and the recorded value regresses from 40 to 25. -/
theorem C2_counterexample :
    recordedSeq runningState [evt 10, evt 40, evt 25, evt 70] = [10, 40, 25, 70] ∧
    recordedSeq runningState [evt 10, evt 40, evt 25, evt 70] ≠ [10, 40, 40, 70] := by
  refine ⟨rfl, by decide⟩

/-- C2 (amended): while a job is running every progress event is
recorded exactly as received, with no monotonicity filter: the
recorded sequence equals the receipt sequence of progress values, so
[10, 40, 25, 70] yields [10, 40, 25, 70]. -/
theorem C2_events_recorded_as_received (s : AppState)
    (events : List ProcessingProgress) :
    recordedSeq s events = events.map ProcessingProgress.progress := by
  induction events generalizing s with
  | nil => rfl
  | cons e es ih => simp [recordedSeq, progressValue, onMessage, ih]

/-- C3: the claim states that events after the terminal complete event
leave the job state unchanged; in fact a later progress event
overwrites the recorded progress, so the state does change. -/
theorem C3_counterexample :
    (onMessage runningState completeEvt).progress = some completeEvt ∧
    (onMessage (onMessage runningState completeEvt) (evt 50)).progress =
      some (evt 50) ∧
    onMessage (onMessage runningState completeEvt) (evt 50) ≠
      onMessage runningState completeEvt := by
  refine ⟨rfl, rfl, by decide⟩

/-- C3 (amended): a terminal complete event with output_filename
out.mp4 records stage complete with that output filename and clears
`isProcessing`, but there is no terminal latch: any progress event
received afterwards overwrites the recorded job state without any
user reset. -/
theorem C3_complete_recorded_no_latch (s : AppState) (e : ProcessingProgress) :
    (onMessage s completeEvt).progress = some completeEvt ∧
    (onMessage s completeEvt).isProcessing = false ∧
    completeEvt.stage = "complete" ∧
    completeEvt.output_filename = some "out.mp4" ∧
    (onMessage (onMessage s completeEvt) e).progress = some e := by
  refine ⟨rfl, ?_, rfl, rfl, rfl⟩
  simp [onMessage, completeEvt]

/-- C4: the claim states a start while a job is active fails with no
request and the job state untouched; in fact `handleProcess` has no
such guard: invoked on a running state it sends a request and
overwrites the recorded progress with the starting object. -/
theorem C4_counterexample :
    runningState.isProcessing = true ∧
    (handleProcess runningState StartResponse.accepted).requests =
      [{ clip_ids := ["a", "b"], output_filename := "concatenated_video.mp4" }] ∧
    (handleProcess runningState StartResponse.accepted).state.progress =
      some startingProgress ∧
    (handleProcess runningState StartResponse.accepted).state ≠ runningState := by
  refine ⟨rfl, rfl, rfl, by decide⟩

/-- C4 (amended): re-entry while a job is active is prevented only by
the disabled concatenate button; the handler itself performs no
JobAlreadyActive check, and if invoked on an active nonempty state it
issues a new request and resets the recorded progress to the starting
object. -/
theorem C4_guard_only_in_button (s : AppState) (resp : StartResponse)
    (hp : s.isProcessing = true) (hc : s.clips.length ≠ 0) :
    processButtonDisabled s = true ∧
    (handleProcess s resp).requests =
      [{ clip_ids := s.clips.map VideoClip.id,
         output_filename := "concatenated_video.mp4" }] ∧
    (handleProcess s resp).state.progress = some startingProgress := by
  refine ⟨by simp [processButtonDisabled, hp], ?_, ?_⟩ <;>
    cases resp <;> simp [handleProcess, hc]

/-- C4 witness: the running two-clip state satisfies both hypotheses
and the conclusion. -/
theorem C4_guard_only_in_button_witness :
    processButtonDisabled runningState = true ∧
    (handleProcess runningState StartResponse.accepted).requests =
      [{ clip_ids := runningState.clips.map VideoClip.id,
         output_filename := "concatenated_video.mp4" }] ∧
    (handleProcess runningState StartResponse.accepted).state.progress =
      some startingProgress :=
  C4_guard_only_in_button runningState StartResponse.accepted rfl (by decide)

/-- C5: the claim states the refresh happens regardless of the
delete's success and in particular after a NotFound; in fact a non-ok
delete response throws before `loadClips`, so no refresh occurs. -/
theorem C5_counterexample :
    (handleDeleteClip twoClipIdle ("zzz") (DeleteResponse.httpError ("Not Found"))
        (ClipsFetch.success (some []))).refreshCount = 0 ∧
    (handleDeleteClip twoClipIdle ("zzz") (DeleteResponse.httpError ("Not Found"))
        (ClipsFetch.success (some []))).alerts =
      ["Failed to delete clip: Error: Delete failed: Not Found"] := by
  refine ⟨rfl, rfl⟩

/-- C5 (amended): `remove` refreshes the registry only when the delete
succeeds; when the backend reports the id does not exist (non-ok
response) the failure is surfaced non-fatally as an alert, no refresh
occurs, and the state is left unchanged. -/
theorem C5_refresh_only_on_success (s : AppState) (cid st : String)
    (rr : ClipsFetch) :
    (handleDeleteClip s cid DeleteResponse.ok rr).refreshCount = 1 ∧
    (handleDeleteClip s cid (DeleteResponse.httpError st) rr).refreshCount = 0 ∧
    (handleDeleteClip s cid (DeleteResponse.httpError st) rr).state = s ∧
    (handleDeleteClip s cid (DeleteResponse.httpError st) rr).alerts =
      ["Failed to delete clip: Error: Delete failed: " ++ st] := by
  refine ⟨rfl, rfl, rfl, rfl⟩

/-- C6: the claim states a backend rejection moves the job from
starting to error with errorDetail from the response; in fact the
handler only alerts and clears `isProcessing`, and the recorded stage
remains the string starting. -/
theorem C6_counterexample :
    (handleProcess twoClipIdle (StartResponse.httpError ("Conflict"))).state.progress =
      some startingProgress ∧
    (handleProcess twoClipIdle
        (StartResponse.httpError ("Conflict"))).state.isProcessing = false ∧
    (handleProcess twoClipIdle (StartResponse.httpError ("Conflict"))).state.clips =
      twoClipIdle.clips ∧
    startingProgress.stage = "starting" := by
  refine ⟨rfl, rfl, rfl, rfl⟩

/-- C6 (amended): when the backend rejects the start request the
handler surfaces the response detail through an alert and clears
`isProcessing`, but the recorded job state keeps the starting stage:
no error status or errorDetail field is recorded in state. -/
theorem C6_reject_alerts_keeps_starting (s : AppState) (st : String)
    (h : s.clips.length ≠ 0) :
    (handleProcess s (StartResponse.httpError st)).state.progress =
      some startingProgress ∧
    (handleProcess s (StartResponse.httpError st)).state.isProcessing = false ∧
    (handleProcess s (StartResponse.httpError st)).alerts =
      ["Processing failed: Error: Processing failed: " ++ st] := by
  simp [handleProcess, h]

/-- C6 witness: the idle two-clip state satisfies the hypothesis and
the conclusion for a concrete rejection. -/
theorem C6_reject_alerts_keeps_starting_witness :
    (handleProcess twoClipIdle (StartResponse.httpError ("Conflict"))).state.progress =
      some startingProgress ∧
    (handleProcess twoClipIdle
        (StartResponse.httpError ("Conflict"))).state.isProcessing = false ∧
    (handleProcess twoClipIdle (StartResponse.httpError ("Conflict"))).alerts =
      ["Processing failed: Error: Processing failed: Conflict"] :=
  C6_reject_alerts_keeps_starting twoClipIdle ("Conflict") (by decide)

/-- One alert arises per failed file: the number of alerts collected
from a batch equals the number of files whose outcome is a failure. -/
theorem filterMap_uploadAlert_length (fs : List UploadFile) :
    (fs.filterMap uploadAlert).length =
      (fs.filter (fun f => f.outcome.failed)).length := by
  induction fs with
  | nil => rfl
  | cons f t ih =>
      cases hf : f.outcome <;>
        simp [List.filterMap_cons, List.filter_cons, uploadAlert,
          UploadOutcome.failed, hf, ih]

/-- C7: within a nonempty batch every file is attempted (one upload
request per file; a failure alerts and does not abort the rest), each
failure is recorded as exactly one alert, and exactly one registry
refresh runs at batch end regardless of how many files failed. -/
theorem C7_batch_best_effort_one_refresh (s : AppState)
    (fs : List UploadFile) (rr : ClipsFetch) (h : fs ≠ []) :
    (handleFileUpload s (some fs) rr).uploadAttempts = fs.length ∧
    (handleFileUpload s (some fs) rr).alerts.length =
      (fs.filter (fun f => f.outcome.failed)).length ∧
    (handleFileUpload s (some fs) rr).refreshCount = 1 := by
  have hlen : ¬ fs.length = 0 := by simpa [List.length_eq_zero] using h
  refine ⟨?_, ?_, ?_⟩ <;>
    simp [handleFileUpload, hlen, filterMap_uploadAlert_length]

/-- C7 witness: a two-file batch in which the second file fails. -/
theorem C7_batch_best_effort_one_refresh_witness :
    (handleFileUpload initialState
        (some [{ name := "a.mp4", outcome := UploadOutcome.success },
               { name := "b.mp4",
                 outcome := UploadOutcome.httpError ("Unsupported Media Type") }])
        (ClipsFetch.success (some [clipA]))).uploadAttempts = 2 ∧
    (handleFileUpload initialState
        (some [{ name := "a.mp4", outcome := UploadOutcome.success },
               { name := "b.mp4",
                 outcome := UploadOutcome.httpError ("Unsupported Media Type") }])
        (ClipsFetch.success (some [clipA]))).alerts.length = 1 ∧
    (handleFileUpload initialState
        (some [{ name := "a.mp4", outcome := UploadOutcome.success },
               { name := "b.mp4",
                 outcome := UploadOutcome.httpError ("Unsupported Media Type") }])
        (ClipsFetch.success (some [clipA]))).refreshCount = 1 := by
  have h := C7_batch_best_effort_one_refresh initialState
    [{ name := "a.mp4", outcome := UploadOutcome.success },
     { name := "b.mp4",
       outcome := UploadOutcome.httpError ("Unsupported Media Type") }]
    (ClipsFetch.success (some [clipA])) (by decide)
  exact ⟨h.1, by rw [h.2.1]; rfl, h.2.2⟩

/-- C8: when the clips fetch fails, `loadClips` leaves the previous
state entirely unchanged: the prior clip set is never partially
overwritten or cleared by a failed refresh. -/
theorem C8_refresh_failure_retains_state (s : AppState) (msg : String) :
    (loadClips s (ClipsFetch.failure msg)).state = s := rfl

/-- C9: a successful clips response whose body lacks a clips field
(null or undefined) replaces the registry with the empty list and
reports no error. -/
theorem C9_missing_clips_field_empties (s : AppState) :
    (loadClips s (ClipsFetch.success none)).state.clips = [] ∧
    (loadClips s (ClipsFetch.success none)).logs = [] := by
  refine ⟨rfl, rfl⟩

/-- C10: a null or empty file selection makes the upload handler a
no-op: no upload request, no refresh, no alert, no input clearing, and
the state (including the uploading flag) is unchanged. -/
theorem C10_empty_selection_noop (s : AppState) (rr : ClipsFetch) :
    handleFileUpload s none rr =
      { state := s, uploadAttempts := 0, refreshCount := 0,
        alerts := [], inputCleared := false } ∧
    handleFileUpload s (some []) rr =
      { state := s, uploadAttempts := 0, refreshCount := 0,
        alerts := [], inputCleared := false } := by
  refine ⟨rfl, rfl⟩
